import Mathlib

/-
Verification development for the speech-gated transcription pipeline.

The repository consists of five small FastAPI services.  The algorithmic
core embedded here:

* `calculate_audio_energy` — the energy VAD gate of
  services/whisper-cpp-api-vad.py (lines 27-67).  The WAV body is modelled
  as the parsed list of signed 16-bit samples; `Option` is `none` when the
  read/`struct.unpack` step raises.  The Python dict it returns has keys
  rms, peak, speech_ratio, has_speech in both branches and never an
  "error" key, which the `error : Option String` field mirrors (`none` =
  key absent).  Since `rms = sqrt (sumSquares / n)` and both sides of the
  comparison `rms > 200` are nonnegative, the comparison is embedded as
  the equivalent exact-rational comparison `sumSquares / n > 200 ^ 2`
  (field `rmsSq` = the square of the Python `rms` value).
* `extract_speech_segments` — the Silero VAD stage of
  services/whisper-cpp-api-silero-vad.py (lines 84-158).  The detector,
  torch tensors and scipy I/O are external capabilities; the environment
  `ExtractEnv` supplies the detector's timestamps, the total sample count,
  whether any exception was raised inside the `try` block, and whether the
  speech-only WAV file had already been created by `save_wav_scipy` when
  that exception was raised (a partial write, e.g. on a full disk).
* `transcribeVad`, `transcribeSilero`, `transcribeOriginal` — the
  /transcribe handlers of whisper-cpp-api-vad.py, whisper-cpp-api-silero-vad.py
  and whisper-cpp-api-original.py.  External effects (ffmpeg, the
  whisper-cli subprocess, the JSON side-file) are supplied by an
  environment record; the temp-file bookkeeping of the `finally` blocks is
  tracked explicitly as a list of existing paths, and the returned Python
  dicts are embedded as response records whose `Option` fields are `none`
  exactly when the corresponding key is absent from the dict.
* `transcribeFw` with `hallucinationFilter` — the faster-whisper variant
  services/whisper-api.py: string parameter parsing (Python `float`
  semantics are supplied as a function argument `pf`, with `none`
  modelling a raised `ValueError`) and the `no_speech_prob > 0.7` segment
  filter of its result loop.

Python floats appearing in thresholds and JSON numbers are embedded as
exact rationals; `str.strip()` is embedded as `pyStrip` over the
character list of the string.
-/

/-! ## Python string helpers -/

/-- Whitespace test used by the embedding of Python `str.strip()`. -/
def isWs (c : Char) : Bool := c.isWhitespace

/-- Drop leading and trailing whitespace characters from a character list. -/
def trimBoth (l : List Char) : List Char :=
  ((l.dropWhile isWs).reverse.dropWhile isWs).reverse

/-- Embedding of Python `str.strip()` (no arguments): remove leading and
trailing whitespace. -/
def pyStrip (s : String) : String := String.mk (trimBoth s.data)

/-- Embedding of Python `str.lower()` (ASCII-relevant part). -/
def pyLower (s : String) : String := String.mk (s.data.map Char.toLower)

/-- Concatenation of a list of strings (structural form of `"".join`). -/
def joinAll : List String → String
  | [] => ""
  | a :: l => a ++ joinAll l

/-- Replace every non-overlapping occurrence of `pat` (nonempty) in a
character list, scanning left to right; `fuel` bounds the recursion and
is instantiated with the list length. -/
def replaceFuel (pat rep : List Char) : ℕ → List Char → List Char
  | _, [] => []
  | 0, l => l
  | fuel + 1, c :: rest =>
      if pat.isPrefixOf (c :: rest) then
        rep ++ replaceFuel pat rep fuel ((c :: rest).drop pat.length)
      else c :: replaceFuel pat rep fuel rest

/-- Embedding of Python `str.replace(pat, rep)` for a nonempty pattern
(the source only uses the pattern ".wav"): replace all non-overlapping
occurrences left to right. -/
def pyReplace (s pat rep : String) : String :=
  if pat.data = [] then s
  else String.mk (replaceFuel pat.data rep.data s.data.length s.data)

/-! ## Shared data model -/

/-- A JSON scalar as placed in the response dicts: the sources sometimes
put a number and sometimes a string (for example `"0.00"`) in the same
field. -/
inductive JVal where
  | num (q : ℚ)
  | str (s : String)
deriving DecidableEq

/-- An output segment of the whisper-cpp variants:
`{"start": ms_from / 1000, "end": ms_to / 1000, "text": stripped}`.
The Python key `end` is embedded as the field `stop`. -/
structure Seg where
  start : ℚ
  stop : ℚ
  text : String
deriving DecidableEq

/-- A raw segment of the whisper-cli JSON side-file.  `text` is read with
`segment.get("text", "")`, so a missing key is `none` (defaulted);
`offsets` is read with `segment['offsets']['from'] / ['to']`, so `none`
means the key chain is missing and a `KeyError` is raised when reached. -/
structure CppSeg where
  text : Option String := none
  offsets : Option (ℤ × ℤ) := none
deriving DecidableEq

/-- The parsed whisper-cli JSON document: `transcription` is read with
`.get("transcription", [])` and `resultLanguage` with
`.get("result", dict()).get("language", language)`, so both are `Option`s
defaulted at the use site. -/
structure WhisperOutput where
  transcription : Option (List CppSeg) := none
  resultLanguage : Option String := none
deriving DecidableEq

/-- State of the JSON side-file after the engine ran: never written
(reading raises FileNotFoundError), written but not JSON (json.load
raises), or parsed. -/
inductive JsonStatus where
  | missing
  | malformed
  | parsed (out : WhisperOutput)
deriving DecidableEq

/-- Outcome of a `subprocess.run` call with a timeout: either
`subprocess.TimeoutExpired` was raised, or the process exited with a
return code and captured stderr. -/
inductive RunRes where
  | timeout
  | exited (rc : ℤ) (stderr : String)
deriving DecidableEq

/-- Whether the JSON side-file exists on disk. -/
def jsonExists : JsonStatus → Bool
  | .missing => false
  | _ => true

/-! ## Energy VAD gate (whisper-cpp-api-vad.py lines 27-67) -/

/-- MIN_RMS_THRESHOLD = 200. -/
def minRmsThreshold : ℤ := 200

/-- MIN_SPEECH_RATIO = 0.01. -/
def minSpeechRatio : ℚ := 1 / 100

/-- The dict returned by `calculate_audio_energy`.  `rmsSq` is the square
of the Python `rms` float (exact, since `rms = sqrt (sumSquares / n)`);
the source never puts an "error" key in the dict, so `error` is always
`none` in the function below. -/
structure EnergyInfo where
  rmsSq : ℚ
  peak : ℕ
  speech_ratio : ℚ
  has_speech : Bool
  error : Option String := none
deriving DecidableEq

/-- `sum(s * s for s in samples)`. -/
def sumSquares (samples : List ℤ) : ℤ := (samples.map (fun s => s * s)).sum

/-- `sum(1 for s in samples if abs(s) > MIN_RMS_THRESHOLD)`. -/
def aboveCount (samples : List ℤ) : ℕ :=
  (samples.filter (fun s => minRmsThreshold < |s|)).length

/-- Embedding of `calculate_audio_energy`.  The argument is the list of
16-bit samples parsed from the WAV body; `none` means the read or
`struct.unpack` step raised, which the source catches and answers with
the fail-open dict (has_speech true, metrics zero, no error key). -/
def calculate_audio_energy (samples? : Option (List ℤ)) : EnergyInfo :=
  match samples? with
  | none =>
      { rmsSq := 0, peak := 0, speech_ratio := 0, has_speech := true, error := none }
  | some samples =>
      if samples.length = 0 then
        { rmsSq := 0, peak := 0, speech_ratio := 0, has_speech := false, error := none }
      else
        let n : ℚ := samples.length
        let rmsSq : ℚ := (sumSquares samples : ℚ) / n
        let ratio : ℚ := (aboveCount samples : ℚ) / n
        { rmsSq := rmsSq,
          peak := (samples.map Int.natAbs).foldl max 0,
          speech_ratio := ratio,
          has_speech := decide (minSpeechRatio ≤ ratio) && decide ((minRmsThreshold : ℚ) ^ 2 < rmsSq),
          error := none }

/-! ## Segment conversion loop shared by the whisper-cpp variants -/

/-- Embedding of the result loop
`for segment in whisper_output.get("transcription", []): ...` of the
three subprocess variants: a segment whose stripped text is empty is
skipped; otherwise the millisecond offsets are divided by 1000 and
`full_text` accumulates `seg_text + " "`.  A reached missing offsets key
raises `KeyError`, embedded as the `.error` case (the request-level
handler turns it into the error envelope). -/
def convertSegments : List CppSeg → Except String (List Seg × String)
  | [] => .ok ([], "")
  | seg :: rest =>
      let t := pyStrip (seg.text.getD "")
      if t = "" then convertSegments rest
      else
        match seg.offsets with
        | none => .error "KeyError: offsets"
        | some (msFrom, msTo) =>
            match convertSegments rest with
            | .error e => .error e
            | .ok (segs, raw) =>
                .ok ({ start := (msFrom : ℚ) / 1000, stop := (msTo : ℚ) / 1000, text := t } :: segs,
                     t ++ " " ++ raw)

/-! ## Temp-file paths and cleanup -/

/-- The NamedTemporaryFile path of a request (one representative name). -/
def tmpPath : String := "/tmp/audio-upload"

/-- `tmp_path + ".wav"`. -/
def wavPath : String := tmpPath ++ ".wav"

/-- `tmp_path + ".json"`. -/
def jsonPath : String := tmpPath ++ ".json"

/-- The `finally` block of whisper-cpp-api-vad.py and -original.py:
`for path in [tmp_path, wav_path, json_output_path]: if exists: unlink`. -/
def cleanupVad (fs : List String) : List String :=
  fs.filter (fun p => !(p == tmpPath || p == wavPath || p == jsonPath))

/-- The `finally` block of whisper-cpp-api-silero-vad.py: the three fixed
paths, then the speech-only WAV when its recorded path is set, differs
from `wav_path` and exists. -/
def cleanupSilero (spv : Option String) (fs : List String) : List String :=
  let fs1 := fs.filter (fun p => !(p == tmpPath || p == wavPath || p == jsonPath))
  match spv with
  | none => fs1
  | some p => if p = wavPath then fs1 else fs1.filter (fun q => !(q == p))

/-! ## Response record of the whisper-cpp variants -/

/-- The response dict of the three whisper-cpp variants.  `Option` fields
mirror keys that are present only in some responses (`none` = key absent
from the dict). -/
structure CppResponse where
  status : String
  language : Option String := none
  language_probability : Option JVal := none
  duration : Option JVal := none
  full_text : Option String := none
  segments : Option (List Seg) := none
  error : Option String := none
  vad_filtered : Option Bool := none
  energy_info : Option EnergyInfo := none
deriving DecidableEq

/-! ## whisper-cpp-api-vad.py /transcribe -/

/-- Environment of one request to the energy-VAD variant: the Form
parameters (the five decoding parameters arrive as strings and are never
read by this variant) and the outcomes of the external effects. -/
structure VadEnv where
  language : String := "ja"
  initial_prompt : Option String := none
  temperature : Option String := some "0.0"
  no_speech_threshold : Option String := some "0.6"
  condition_on_previous_text : Option String := some "false"
  compression_ratio_threshold : Option String := some "2.4"
  logprob_threshold : Option String := some "-1.0"
  ffmpeg : RunRes := .exited 0 ""
  wavWritten : Bool := true
  wavSamples : Option (List ℤ) := none
  engine : RunRes := .exited 0 ""
  jsonStatus : JsonStatus := .missing
deriving DecidableEq

/-- Result of one request: the response dict, whether the whisper-cli
subprocess was started, and the request's temp files still existing after
the `finally` block ran. -/
structure CppOut where
  resp : CppResponse
  engineInvoked : Bool
  finalFs : List String
deriving DecidableEq

/-- The whisper-cli stage of whisper-cpp-api-vad.py: subprocess run with
timeout, JSON side-file read, segment conversion, and the success/error
responses, given the temp files existing when the stage starts. -/
def vadEngineStage (env : VadEnv) (fs1 : List String) : CppOut :=
  match env.engine with
  | .timeout =>
      { resp := { status := "error", error := some "Transcription timeout after 120 seconds" },
        engineInvoked := true,
        finalFs := cleanupVad (fs1 ++ (if jsonExists env.jsonStatus then [jsonPath] else [])) }
  | .exited rc2 stderr2 =>
      let fs2 := fs1 ++ (if jsonExists env.jsonStatus then [jsonPath] else [])
      if rc2 ≠ 0 then
        { resp := { status := "error", error := some ("whisper-cpp failed: " ++ stderr2) },
          engineInvoked := true, finalFs := cleanupVad fs2 }
      else
        match env.jsonStatus with
        | .missing =>
            { resp := { status := "error",
                        error := some ("No such file or directory: " ++ jsonPath) },
              engineInvoked := true, finalFs := cleanupVad fs2 }
        | .malformed =>
            { resp := { status := "error", error := some "Expecting value: line 1 column 1" },
              engineInvoked := true, finalFs := cleanupVad fs2 }
        | .parsed out =>
            match convertSegments (out.transcription.getD []) with
            | .error e =>
                { resp := { status := "error", error := some e },
                  engineInvoked := true, finalFs := cleanupVad fs2 }
            | .ok (segs, raw) =>
                { resp := { status := "success",
                            language := some (out.resultLanguage.getD env.language),
                            language_probability := some (.num 1),
                            duration := some (.num (match segs.getLast? with
                              | some s => s.stop
                              | none => 0)),
                            full_text := some (pyStrip raw),
                            segments := some segs,
                            vad_filtered := some false,
                            energy_info := some (calculate_audio_energy env.wavSamples) },
                  engineInvoked := true, finalFs := cleanupVad fs2 }

/-- Embedding of the /transcribe handler of whisper-cpp-api-vad.py.
Every `return` of the source (including the two `except` handlers) maps
to one branch; `finalFs` applies the `finally` cleanup to the temp files
created up to that exit point. -/
def transcribeVad (env : VadEnv) : CppOut :=
  let fs0 : List String := [tmpPath]
  match env.ffmpeg with
  | .timeout =>
      { resp := { status := "error", error := some "Transcription timeout after 120 seconds" },
        engineInvoked := false,
        finalFs := cleanupVad (fs0 ++ (if env.wavWritten then [wavPath] else [])) }
  | .exited rc stderr =>
      let fs1 := fs0 ++ (if env.wavWritten then [wavPath] else [])
      if rc ≠ 0 then
        { resp := { status := "error", error := some ("Audio conversion failed: " ++ stderr) },
          engineInvoked := false, finalFs := cleanupVad fs1 }
      else
        let energy := calculate_audio_energy env.wavSamples
        if energy.has_speech then
          vadEngineStage env fs1
        else
          { resp := { status := "success",
                      language := some env.language,
                      language_probability := some (.str "1.0000"),
                      duration := some (.str "0.00"),
                      full_text := some "",
                      segments := some [],
                      vad_filtered := some true,
                      energy_info := some (calculate_audio_energy env.wavSamples) },
            engineInvoked := false, finalFs := cleanupVad fs1 }

/-! ## whisper-cpp-api-silero-vad.py: extract_speech_segments -/

/-- The VAD info dict of the Silero variant.  The no-speech and
with-speech branches carry the four metric keys; the exception branch
carries only `has_speech` and `error` (`Option` fields model key
presence). -/
structure VadInfo where
  has_speech : Bool
  total_duration_ms : Option ℚ := none
  speech_duration_ms : Option ℚ := none
  speech_ratio : Option ℚ := none
  segments : Option ℕ := none
  error : Option String := none
deriving DecidableEq

/-- Environment of one `extract_speech_segments` call: `failure` is the
message of an exception raised anywhere inside its `try` block (reading,
normalisation, detection, splicing or saving); `failWrote` records
whether the speech-only WAV file had already been created when that
exception was raised (true models `save_wav_scipy` creating the file and
then failing mid-write, e.g. on a full disk — the file then exists on
disk although the function fails open).  With no failure, `timestamps`
are the sample-index pairs the detector returned over `totalSamples`
samples at 16 kHz. -/
structure ExtractEnv where
  failure : Option String := none
  failWrote : Bool := false
  timestamps : List (ℕ × ℕ) := []
  totalSamples : ℕ := 0
deriving DecidableEq

/-- Return value of `extract_speech_segments`: the pair the source
returns, plus whether the speech-only WAV file was written (true exactly
in the with-speech branch, where `save_wav_scipy` runs). -/
structure ExtractOut where
  path : Option String
  info : VadInfo
  wrote : Bool
deriving DecidableEq

/-- Embedding of `extract_speech_segments` (whisper-cpp-api-silero-vad.py
lines 84-158).  On an internal exception the source returns the original
path with `has_speech` true and the error message — but the speech-only
WAV may already exist if `save_wav_scipy` created it before raising
(`wrote := env.failWrote`); with no timestamps it returns
`(None, no-speech info)`; otherwise it splices the chunks, writes
`wav_path.replace(".wav", "_speech.wav")` and returns that path. -/
def extract_speech_segments (p : String) (env : ExtractEnv) : ExtractOut :=
  match env.failure with
  | some e =>
      { path := some p, info := { has_speech := true, error := some e },
        wrote := env.failWrote }
  | none =>
      let totalMs : ℚ := (env.totalSamples : ℚ) / 16000 * 1000
      if env.timestamps = [] then
        { path := none,
          info := { has_speech := false, total_duration_ms := some totalMs,
                    speech_duration_ms := some 0, speech_ratio := some 0,
                    segments := some 0 },
          wrote := false }
      else
        let speechSamples : ℕ := (env.timestamps.map (fun ts => ts.2 - ts.1)).sum
        { path := some (pyReplace p ".wav" "_speech.wav"),
          info := { has_speech := true, total_duration_ms := some totalMs,
                    speech_duration_ms := some ((speechSamples : ℚ) / 16000 * 1000),
                    speech_ratio := some ((speechSamples : ℚ) / (env.totalSamples : ℚ)),
                    segments := some env.timestamps.length },
          wrote := true }

/-! ## whisper-cpp-api-silero-vad.py /transcribe -/

/-- Environment of one request to the Silero variant. -/
structure SileroEnv where
  language : String := "ja"
  initial_prompt : Option String := none
  ffmpeg : RunRes := .exited 0 ""
  wavWritten : Bool := true
  vad : ExtractEnv := {}
  engine : RunRes := .exited 0 ""
  jsonStatus : JsonStatus := .missing
deriving DecidableEq

/-- Response record of the Silero variant: same shape as `CppResponse`
plus the `vad_info` key. -/
structure SileroResponse where
  status : String
  language : Option String := none
  language_probability : Option JVal := none
  duration : Option JVal := none
  full_text : Option String := none
  segments : Option (List Seg) := none
  error : Option String := none
  vad_info : Option VadInfo := none
deriving DecidableEq

/-- Result of one Silero-variant request. -/
structure SileroOut where
  resp : SileroResponse
  engineInvoked : Bool
  finalFs : List String
deriving DecidableEq

/-- The whisper-cli stage of whisper-cpp-api-silero-vad.py, given the VAD
info, the recorded `speech_wav_path` value and the temp files existing
when the stage starts. -/
def sileroEngineStage (env : SileroEnv) (info : VadInfo) (spv : Option String)
    (fs2 : List String) : SileroOut :=
  match env.engine with
  | .timeout =>
      { resp := { status := "error", error := some "Transcription timeout after 120 seconds" },
        engineInvoked := true,
        finalFs := cleanupSilero spv
          (fs2 ++ (if jsonExists env.jsonStatus then [jsonPath] else [])) }
  | .exited rc2 stderr2 =>
      let fs3 := fs2 ++ (if jsonExists env.jsonStatus then [jsonPath] else [])
      if rc2 ≠ 0 then
        { resp := { status := "error", error := some ("whisper-cpp failed: " ++ stderr2) },
          engineInvoked := true, finalFs := cleanupSilero spv fs3 }
      else
        match env.jsonStatus with
        | .missing =>
            { resp := { status := "error",
                        error := some ("No such file or directory: " ++ jsonPath) },
              engineInvoked := true, finalFs := cleanupSilero spv fs3 }
        | .malformed =>
            { resp := { status := "error", error := some "Expecting value: line 1 column 1" },
              engineInvoked := true, finalFs := cleanupSilero spv fs3 }
        | .parsed out =>
            match convertSegments (out.transcription.getD []) with
            | .error e =>
                { resp := { status := "error", error := some e },
                  engineInvoked := true, finalFs := cleanupSilero spv fs3 }
            | .ok (segs, raw) =>
                { resp := { status := "success",
                            language := some (out.resultLanguage.getD env.language),
                            language_probability := some (.num 1),
                            duration := some (.num (match segs.getLast? with
                              | some s => s.stop
                              | none => 0)),
                            full_text := some (pyStrip raw),
                            segments := some segs,
                            vad_info := some info },
                  engineInvoked := true, finalFs := cleanupSilero spv fs3 }

/-- Embedding of the /transcribe handler of
whisper-cpp-api-silero-vad.py.  `speech_wav_path` starts as `None`, is
set to the pair component returned by `extract_speech_segments`, and the
`finally` block removes the three fixed paths and then the recorded
speech path when set, distinct from `wav_path` and existing. -/
def transcribeSilero (env : SileroEnv) : SileroOut :=
  let fs0 : List String := [tmpPath]
  match env.ffmpeg with
  | .timeout =>
      { resp := { status := "error", error := some "Transcription timeout after 120 seconds" },
        engineInvoked := false,
        finalFs := cleanupSilero none (fs0 ++ (if env.wavWritten then [wavPath] else [])) }
  | .exited rc stderr =>
      let fs1 := fs0 ++ (if env.wavWritten then [wavPath] else [])
      if rc ≠ 0 then
        { resp := { status := "error", error := some ("Audio conversion failed: " ++ stderr) },
          engineInvoked := false, finalFs := cleanupSilero none fs1 }
      else
        let ex := extract_speech_segments wavPath env.vad
        let fs2 := fs1 ++ (if ex.wrote then [pyReplace wavPath ".wav" "_speech.wav"] else [])
        if ex.info.has_speech then
          sileroEngineStage env ex.info ex.path fs2
        else
          { resp := { status := "success",
                      language := some env.language,
                      language_probability := some (.num 1),
                      duration := some (.num 0),
                      full_text := some "",
                      segments := some [],
                      vad_info := some ex.info },
            engineInvoked := false, finalFs := cleanupSilero ex.path fs2 }

/-! ## whisper-cpp-api-original.py /transcribe -/

/-- Environment of one request to the original whisper-cpp variant (no
VAD stage). -/
structure OrigEnv where
  language : String := "ja"
  initial_prompt : Option String := none
  ffmpeg : RunRes := .exited 0 ""
  wavWritten : Bool := true
  engine : RunRes := .exited 0 ""
  jsonStatus : JsonStatus := .missing
deriving DecidableEq

/-- The whisper-cli stage of whisper-cpp-api-original.py. -/
def origEngineStage (env : OrigEnv) (fs1 : List String) : CppOut :=
  match env.engine with
  | .timeout =>
      { resp := { status := "error", error := some "Transcription timeout after 120 seconds" },
        engineInvoked := true,
        finalFs := cleanupVad (fs1 ++ (if jsonExists env.jsonStatus then [jsonPath] else [])) }
  | .exited rc2 stderr2 =>
      let fs2 := fs1 ++ (if jsonExists env.jsonStatus then [jsonPath] else [])
      if rc2 ≠ 0 then
        { resp := { status := "error", error := some ("whisper-cpp failed: " ++ stderr2) },
          engineInvoked := true, finalFs := cleanupVad fs2 }
      else
        match env.jsonStatus with
        | .missing =>
            { resp := { status := "error",
                        error := some ("No such file or directory: " ++ jsonPath) },
              engineInvoked := true, finalFs := cleanupVad fs2 }
        | .malformed =>
            { resp := { status := "error", error := some "Expecting value: line 1 column 1" },
              engineInvoked := true, finalFs := cleanupVad fs2 }
        | .parsed out =>
            match convertSegments (out.transcription.getD []) with
            | .error e =>
                { resp := { status := "error", error := some e },
                  engineInvoked := true, finalFs := cleanupVad fs2 }
            | .ok (segs, raw) =>
                { resp := { status := "success",
                            language := some (out.resultLanguage.getD env.language),
                            language_probability := some (.num 1),
                            duration := some (.num (match segs.getLast? with
                              | some s => s.stop
                              | none => 0)),
                            full_text := some (pyStrip raw),
                            segments := some segs },
                  engineInvoked := true, finalFs := cleanupVad fs2 }

/-- Embedding of the /transcribe handler of whisper-cpp-api-original.py:
identical to the energy-VAD variant minus the energy gate, the extra
Form parameters and the `vad_filtered` / `energy_info` response keys. -/
def transcribeOriginal (env : OrigEnv) : CppOut :=
  let fs0 : List String := [tmpPath]
  match env.ffmpeg with
  | .timeout =>
      { resp := { status := "error", error := some "Transcription timeout after 120 seconds" },
        engineInvoked := false,
        finalFs := cleanupVad (fs0 ++ (if env.wavWritten then [wavPath] else [])) }
  | .exited rc stderr =>
      let fs1 := fs0 ++ (if env.wavWritten then [wavPath] else [])
      if rc ≠ 0 then
        { resp := { status := "error", error := some ("Audio conversion failed: " ++ stderr) },
          engineInvoked := false, finalFs := cleanupVad fs1 }
      else
        origEngineStage env fs1

/-! ## whisper-api.py (faster-whisper variant) -/

/-- A faster-whisper segment object.  `start`, `end` (embedded as
`stop`) and `text` are always present; the three score attributes are
read with `hasattr` / `getattr(..., None)`, so they are `Option`s. -/
structure FwSeg where
  start : ℚ
  stop : ℚ
  text : String
  avg_logprob : Option ℚ := none
  no_speech_prob : Option ℚ := none
  compression_ratio : Option ℚ := none
deriving DecidableEq

/-- The keep test of the result loop: a segment is skipped exactly when
`hasattr(seg, no_speech_prob)` and its value exceeds 0.7. -/
def keepSeg (s : FwSeg) : Bool :=
  match s.no_speech_prob with
  | some p => decide (p ≤ 7 / 10)
  | none => true

/-- The dict built for a kept segment: text stripped, the score
attributes carried over via `getattr(..., None)`. -/
def stripFw (s : FwSeg) : FwSeg := { s with text := pyStrip s.text }

/-- The hallucination filter of the result loop of whisper-api.py
(lines 67-81): drop segments with `no_speech_prob > 0.7`, keep the rest
in order with stripped text. -/
def hallucinationFilter (l : List FwSeg) : List FwSeg :=
  (l.filter keepSeg).map stripFw

/-- The `full_text` accumulated by the same loop: the kept segments'
stripped texts each followed by one space, with a final strip of the
whole string. -/
def fwFullText (l : List FwSeg) : String :=
  pyStrip (joinAll ((l.filter keepSeg).map (fun s => pyStrip s.text ++ " ")))

/-- The info object returned by `model.transcribe`. -/
structure FwInfo where
  language : String
  language_probability : ℚ
  duration : ℚ
deriving DecidableEq

/-- Environment of one request to whisper-api.py: the Form parameters
(strings, with the literal Form defaults) and the outcome of the
`model.transcribe` call plus iteration of its generator (`.error` = an
exception was raised, carrying `str(e)`). -/
structure FwEnv where
  language : Option String := some "ja"
  initial_prompt : Option String := none
  temperature : Option String := some "0.0"
  no_speech_threshold : Option String := some "0.6"
  condition_on_previous_text : Option String := some "false"
  compression_ratio_threshold : Option String := some "2.4"
  logprob_threshold : Option String := some "-1.0"
  engine : Except String (List FwSeg × FwInfo) := .ok ([], { language := "ja", language_probability := 1, duration := 0 })

/-- The decoding arguments actually handed to `model.transcribe` after
parsing. -/
structure EngineArgs where
  temperature : ℚ
  no_speech_threshold : ℚ
  condition_on_previous_text : Bool
  compression_ratio_threshold : ℚ
  logprob_threshold : ℚ
deriving DecidableEq

/-- Response record of whisper-api.py. -/
structure FwResponse where
  status : String
  language : Option String := none
  language_probability : Option ℚ := none
  duration : Option ℚ := none
  full_text : Option String := none
  segments : Option (List FwSeg) := none
  error : Option String := none
deriving DecidableEq

/-- Result of one whisper-api.py request: response, whether
`model.transcribe` was reached, the arguments it received, and the temp
files left after the `finally` block. -/
structure FwOut where
  resp : FwResponse
  engineInvoked : Bool
  callArgs : Option EngineArgs
  finalFs : List String

/-- Embedding of `float(v) if v else default`: a falsy value (absent
parameter or empty string) yields the default without calling `float`;
otherwise `pf` gives the semantics of Python `float` on the string
(`none` = `ValueError` raised, message as produced by CPython). -/
def parseFloatParam (pf : String → Option ℚ) (v : Option String) (dflt : ℚ) :
    Except String ℚ :=
  match v with
  | none => .ok dflt
  | some s =>
      if s = "" then .ok dflt
      else
        match pf s with
        | some q => .ok q
        | none => .error ("could not convert string to float: " ++ s)

/-- Embedding of `v.lower() == "true" if v else False`: never raises. -/
def parseBoolParam (v : Option String) : Bool :=
  match v with
  | none => false
  | some s => if s = "" then false else pyLower s == "true"

/-- The parameter-parsing block of whisper-api.py (lines 34-38), in source
order; the first `ValueError` aborts. -/
def parseAll (pf : String → Option ℚ) (env : FwEnv) : Except String EngineArgs :=
  match parseFloatParam pf env.temperature 0 with
  | .error e => .error e
  | .ok temp =>
      match parseFloatParam pf env.no_speech_threshold (3 / 5) with
      | .error e => .error e
      | .ok nst =>
          let cond := parseBoolParam env.condition_on_previous_text
          match parseFloatParam pf env.compression_ratio_threshold (12 / 5) with
          | .error e => .error e
          | .ok crt =>
              match parseFloatParam pf env.logprob_threshold (-1) with
              | .error e => .error e
              | .ok lpt =>
                  .ok { temperature := temp, no_speech_threshold := nst,
                        condition_on_previous_text := cond,
                        compression_ratio_threshold := crt,
                        logprob_threshold := lpt }

/-- The `finally` block of whisper-api.py: delete the one temp file. -/
def cleanupFw (fs : List String) : List String :=
  fs.filter (fun p => !(p == tmpPath))

/-- Embedding of the /transcribe handler of whisper-api.py: parse the
string parameters (a `ValueError` is caught by the generic handler and
becomes the error envelope), call the engine, filter the segments. -/
def transcribeFw (pf : String → Option ℚ) (env : FwEnv) : FwOut :=
  match parseAll pf env with
  | .error e =>
      { resp := { status := "error", error := some e },
        engineInvoked := false, callArgs := none, finalFs := cleanupFw [tmpPath] }
  | .ok args =>
      match env.engine with
      | .error e =>
          { resp := { status := "error", error := some e },
            engineInvoked := true, callArgs := some args, finalFs := cleanupFw [tmpPath] }
      | .ok (segs, info) =>
          { resp := { status := "success",
                      language := some info.language,
                      language_probability := some info.language_probability,
                      duration := some info.duration,
                      full_text := some (fwFullText segs),
                      segments := some (hallucinationFilter segs) },
            engineInvoked := true, callArgs := some args, finalFs := cleanupFw [tmpPath] }

/-! ## Concrete inputs used by counterexamples and witnesses -/

/-- A short all-zero (silent) sample list: speech ratio 0, RMS 0. -/
def silentSamples : List ℤ := [0, 0, 0, 0]

/-- A burst at amplitude 201 (just above MIN_RMS_THRESHOLD) covering half
of the samples: speech ratio 1/2 ≥ 1 %, yet RMS ≈ 142 ≤ 200. -/
def toneSamples : List ℤ := [201, 0]

/-- Clearly audible samples: ratio 1, RMS 300 > 200. -/
def loudSamples : List ℤ := [300, -300, 300, -300]

/-- Energy-variant request whose VAD gate reports silence. -/
def c1Env : VadEnv := { wavSamples := some silentSamples }

/-- Energy-variant request that reaches the JSON stage and finds a parsed
document without the "transcription" key. -/
def c5Env : VadEnv :=
  { wavSamples := some loudSamples,
    jsonStatus := .parsed { transcription := none, resultLanguage := none } }

/-- A concrete fragment of Python `float` semantics, agreeing with CPython
on the five strings it is applied to ("banana" raises `ValueError`). -/
def pyFloat0 (s : String) : Option ℚ :=
  if s = "0.0" then some 0
  else if s = "0.6" then some (3 / 5)
  else if s = "2.4" then some (12 / 5)
  else if s = "-1.0" then some (-1)
  else none

/-- faster-whisper request carrying an unparsable
`condition_on_previous_text` value. -/
def c8Env : FwEnv := { condition_on_previous_text := some "banana" }

/-- A segment the filter must drop (no_speech_prob 0.9). -/
def fwSegA : FwSeg :=
  { start := 0, stop := 1, text := "  hello ", no_speech_prob := some (9 / 10) }

/-- A segment the filter must keep (no_speech_prob 0.5). -/
def fwSegB : FwSeg :=
  { start := 1, stop := 2, text := "world", no_speech_prob := some (1 / 2) }

/-- Energy-variant request returning one segment with padded text. -/
def c10Env : VadEnv :=
  { wavSamples := some loudSamples,
    jsonStatus := .parsed
      { transcription := some [{ text := some "  hello ", offsets := some (0, 1500) }],
        resultLanguage := none } }

/-- Energy-variant request with a malformed JSON side-file. -/
def c5MalformedEnv : VadEnv := { wavSamples := some loudSamples, jsonStatus := .malformed }

/-- Energy-variant request whose only nonempty segment misses offsets. -/
def c5OffsetsEnv : VadEnv :=
  { wavSamples := some loudSamples,
    jsonStatus := .parsed
      { transcription := some [{ text := some "hi", offsets := none }],
        resultLanguage := none } }

/-- Silero request in which the VAD stage raises after the speech-only
WAV was already created, and the engine then times out. -/
def c3LeakEnv : SileroEnv :=
  { vad := { failure := some "No space left on device", failWrote := true },
    engine := .timeout }

/-- Silero request with a fail-open VAD stage and a malformed JSON
side-file. -/
def c5SileroEnv : SileroEnv :=
  { vad := { failure := some "boom" }, jsonStatus := .malformed }

/-- Energy-variant request equal to `c1Env` except for all five decoding
parameters. -/
def c8IgnoredEnv : VadEnv :=
  { c1Env with
    temperature := some "zzz"
    no_speech_threshold := none
    condition_on_previous_text := some "x"
    compression_ratio_threshold := some "9"
    logprob_threshold := none }

/-! ## Helper lemmas: stripping -/

theorem dropWhile_head_not {p : Char → Bool} :
    ∀ (l : List Char) (c : Char), (l.dropWhile p).head? = some c → p c = false := by
  intro l
  induction l with
  | nil => intro c h; simp [List.dropWhile] at h
  | cons a t ih =>
      intro c h
      rw [List.dropWhile_cons] at h
      cases hp : p a with
      | true => rw [hp] at h; simp at h; exact ih c h
      | false =>
          rw [hp] at h
          simp at h
          rw [← h]
          exact hp

theorem dropWhile_eq_self_of_head {p : Char → Bool} {l : List Char}
    (h : ∀ c, l.head? = some c → p c = false) : l.dropWhile p = l := by
  cases l with
  | nil => rfl
  | cons a t =>
      rw [List.dropWhile_cons, h a rfl]
      simp

theorem dropWhile_idem {p : Char → Bool} (l : List Char) :
    (l.dropWhile p).dropWhile p = l.dropWhile p :=
  dropWhile_eq_self_of_head (fun c h => dropWhile_head_not l c h)

theorem rev_trim_split (m : List Char) :
    m = (m.reverse.dropWhile isWs).reverse ++ (m.reverse.takeWhile isWs).reverse := by
  conv_lhs => rw [← List.reverse_reverse m,
    ← List.takeWhile_append_dropWhile (p := isWs) (l := m.reverse)]
  rw [List.reverse_append]

theorem trimBoth_idem (l : List Char) : trimBoth (trimBoth l) = trimBoth l := by
  unfold trimBoth
  set t := l.dropWhile isWs with hT
  set u := (t.reverse.dropWhile isWs).reverse with hU
  have h1 : u.dropWhile isWs = u := by
    apply dropWhile_eq_self_of_head
    intro c hc
    have ht : t.head? = some c := by
      cases hcase : u with
      | nil => rw [hcase] at hc; simp at hc
      | cons a u' =>
          rw [hcase] at hc
          simp at hc
          rw [rev_trim_split t, ← hU, hcase]
          simp [hc]
    exact dropWhile_head_not l c (by rw [← hT]; exact ht)
  rw [h1]
  have h2 : u.reverse.dropWhile isWs = u.reverse := by
    rw [hU, List.reverse_reverse]
    exact dropWhile_idem _
  rw [h2, List.reverse_reverse]

theorem pyStrip_idem (s : String) : pyStrip (pyStrip s) = pyStrip s :=
  congrArg String.mk (trimBoth_idem s.data)

/-! ## Helper lemmas: energy gate -/


theorem energy_has_speech_iff (samples : List ℤ) (h : samples ≠ []) :
    ((calculate_audio_energy (some samples)).has_speech = true ↔
      ((1 : ℚ) / 100 ≤ (aboveCount samples : ℚ) / (samples.length : ℚ) ∧
       (200 : ℚ) ^ 2 * (samples.length : ℚ) < (sumSquares samples : ℚ))) := by
  have hn : samples.length ≠ 0 := fun hl => h (List.length_eq_zero.mp hl)
  have hnp : (0 : ℚ) < (samples.length : ℚ) := by
    exact_mod_cast Nat.pos_of_ne_zero hn
  simp only [calculate_audio_energy, if_neg hn, Bool.and_eq_true, decide_eq_true_eq,
    minSpeechRatio, minRmsThreshold]
  rw [lt_div_iff₀ hnp]
  norm_num

/-! ## Helper lemmas: segment conversion -/

theorem convertSegments_ok :
    ∀ (l : List CppSeg) (segs : List Seg) (raw : String),
      convertSegments l = .ok (segs, raw) →
      ((∀ s ∈ segs, s.text ≠ "" ∧ pyStrip s.text = s.text) ∧
       raw = joinAll (segs.map (fun s => s.text ++ " "))) := by
  intro l
  induction l with
  | nil =>
      intro segs raw h
      simp [convertSegments] at h
      obtain ⟨h1, h2⟩ := h
      subst h1; subst h2
      simp [joinAll]
  | cons seg rest ih =>
      intro segs raw h
      simp only [convertSegments] at h
      by_cases ht : pyStrip (seg.text.getD "") = ""
      · rw [if_pos ht] at h
        exact ih segs raw h
      · rw [if_neg ht] at h
        cases hoff : seg.offsets with
        | none => rw [hoff] at h; cases h
        | some msp =>
            rw [hoff] at h
            obtain ⟨msFrom, msTo⟩ := msp
            cases hrest : convertSegments rest with
            | error e => rw [hrest] at h; cases h
            | ok pr =>
                rw [hrest] at h
                obtain ⟨segs', raw'⟩ := pr
                simp only [Except.ok.injEq, Prod.mk.injEq] at h
                obtain ⟨hsegs, hraw⟩ := h
                subst hsegs; subst hraw
                obtain ⟨ihm, ihr⟩ := ih segs' raw' hrest
                refine ⟨?_, ?_⟩
                · intro s hs
                  rcases List.mem_cons.mp hs with hs | hs
                  · subst hs
                    exact ⟨ht, pyStrip_idem _⟩
                  · exact ihm s hs
                · simp only [List.map_cons, joinAll, ← ihr, String.append_assoc]

theorem convertSegments_error_of_missing_offsets :
    ∀ (l : List CppSeg), (∃ s ∈ l, pyStrip (s.text.getD "") ≠ "" ∧ s.offsets = none) →
      convertSegments l = .error "KeyError: offsets" := by
  intro l
  induction l with
  | nil => rintro ⟨s, hs, -, -⟩; cases hs
  | cons seg rest ih =>
      rintro ⟨s, hs, hne, hoff⟩
      simp only [convertSegments]
      rcases List.mem_cons.mp hs with hseq | hs
      · subst hseq
        rw [if_neg hne, hoff]
      · by_cases ht : pyStrip (seg.text.getD "") = ""
        · rw [if_pos ht]
          exact ih ⟨s, hs, hne, hoff⟩
        · rw [if_neg ht]
          cases hoff2 : seg.offsets with
          | none => rfl
          | some pr =>
              obtain ⟨msFrom, msTo⟩ := pr
              rw [ih ⟨s, hs, hne, hoff⟩]

/-! ## Helper lemmas: temp-file cleanup -/

theorem convertSegments_skip_textless (l2 : List CppSeg) (seg : CppSeg)
    (hseg : seg.text = none) :
    ∀ l1 : List CppSeg, convertSegments (l1 ++ seg :: l2) = convertSegments (l1 ++ l2) := by
  intro l1
  induction l1 with
  | nil =>
      simp only [List.nil_append, convertSegments, hseg]
      rw [if_pos (by rfl : pyStrip ((none : Option String).getD "") = "")]
  | cons a t ih =>
      simp only [List.cons_append, convertSegments]
      have ih2 : convertSegments (t.append (seg :: l2)) = convertSegments (t.append l2) := ih
      rw [ih2]

theorem cleanupVad_eq_nil {fs : List String}
    (h : ∀ p ∈ fs, p = tmpPath ∨ p = wavPath ∨ p = jsonPath) : cleanupVad fs = [] := by
  unfold cleanupVad
  rw [List.filter_eq_nil_iff]
  intro a ha
  rcases h a ha with h1 | h1 | h1 <;> simp [h1]

theorem cleanupSilero_none_eq (fs : List String) :
    cleanupSilero none fs = cleanupVad fs := rfl

theorem cleanupSilero_eq_nil_some {fs : List String} {p : String}
    (h : ∀ q ∈ fs, q = tmpPath ∨ q = wavPath ∨ q = jsonPath ∨ q = p) :
    cleanupSilero (some p) fs = [] := by
  unfold cleanupSilero
  dsimp only
  by_cases hp : p = wavPath
  · rw [if_pos hp]
    rw [List.filter_eq_nil_iff]
    intro a ha
    rcases h a ha with h1 | h1 | h1 | h1 <;> simp [h1, hp]
  · rw [if_neg hp]
    rw [List.filter_eq_nil_iff]
    intro a ha
    have hmem := List.mem_filter.mp ha
    rcases h a hmem.1 with h1 | h1 | h1 | h1
    · exfalso; have := hmem.2; simp [h1] at this
    · exfalso; have := hmem.2; simp [h1] at this
    · exfalso; have := hmem.2; simp [h1] at this
    · simp [h1]

theorem transcribeVad_finalFs (env : VadEnv) : (transcribeVad env).finalFs = [] := by
  unfold transcribeVad vadEngineStage
  dsimp only
  repeat' split
  all_goals try dsimp only
  all_goals (apply cleanupVad_eq_nil; intro p hp; simp at hp; tauto)

theorem extract_fail {env : ExtractEnv} (p : String) {e : String}
    (h : env.failure = some e) :
    extract_speech_segments p env =
      { path := some p, info := { has_speech := true, error := some e },
        wrote := env.failWrote } := by
  unfold extract_speech_segments
  rw [h]

theorem extract_empty {env : ExtractEnv} (p : String)
    (h1 : env.failure = none) (h2 : env.timestamps = []) :
    extract_speech_segments p env =
      { path := none,
        info := { has_speech := false,
                  total_duration_ms := some ((env.totalSamples : ℚ) / 16000 * 1000),
                  speech_duration_ms := some 0, speech_ratio := some 0,
                  segments := some 0 },
        wrote := false } := by
  unfold extract_speech_segments
  rw [h1]
  dsimp only
  rw [if_pos h2]

theorem extract_speech {env : ExtractEnv} (p : String)
    (h1 : env.failure = none) (h2 : env.timestamps ≠ []) :
    extract_speech_segments p env =
      { path := some (pyReplace p ".wav" "_speech.wav"),
        info := { has_speech := true,
                  total_duration_ms := some ((env.totalSamples : ℚ) / 16000 * 1000),
                  speech_duration_ms :=
                    some (((((env.timestamps.map (fun ts => ts.2 - ts.1)).sum : ℕ)) : ℚ) / 16000 * 1000),
                  speech_ratio :=
                    some ((((env.timestamps.map (fun ts => ts.2 - ts.1)).sum : ℕ) : ℚ) / (env.totalSamples : ℚ)),
                  segments := some env.timestamps.length },
        wrote := true } := by
  unfold extract_speech_segments
  rw [h1]
  dsimp only
  rw [if_neg h2]

theorem cleanupSilero_eq_nil_any (spv : Option String) {fs : List String}
    (h : ∀ p ∈ fs, p = tmpPath ∨ p = wavPath ∨ p = jsonPath) :
    cleanupSilero spv fs = [] := by
  unfold cleanupSilero
  dsimp only
  have h1 : List.filter (fun p => !(p == tmpPath || p == wavPath || p == jsonPath)) fs = [] := by
    rw [List.filter_eq_nil_iff]
    intro a ha
    rcases h a ha with h1 | h1 | h1 <;> simp [h1]
  cases spv with
  | none => exact h1
  | some p =>
      rw [h1]
      dsimp only
      split <;> simp

set_option maxHeartbeats 1600000 in
theorem transcribeSilero_finalFs_noFail (env : SileroEnv)
    (hvf : env.vad.failure = none) : (transcribeSilero env).finalFs = [] := by
  unfold transcribeSilero sileroEngineStage
  dsimp only
  by_cases hts : env.vad.timestamps = []
  · rw [extract_empty wavPath hvf hts]
    dsimp only
    repeat' split
    all_goals try dsimp only
    all_goals (apply cleanupSilero_eq_nil_any; intro p hp; simp at hp; tauto)
  · rw [extract_speech wavPath hvf hts]
    dsimp only
    repeat' split
    all_goals try dsimp only
    all_goals first
      | (apply cleanupSilero_eq_nil_some; intro q hq; simp at hq; tauto)
      | (apply cleanupSilero_eq_nil_any; intro p hp; simp at hp; tauto)

set_option maxHeartbeats 1600000 in
theorem transcribeSilero_finalFs_noWrote (env : SileroEnv)
    (hfw : env.vad.failWrote = false) : (transcribeSilero env).finalFs = [] := by
  rcases hvf : env.vad.failure with - | msg
  · exact transcribeSilero_finalFs_noFail env hvf
  · unfold transcribeSilero sileroEngineStage
    dsimp only
    rw [extract_fail wavPath hvf]
    try dsimp only
    rw [hfw]
    try dsimp only
    repeat' split
    all_goals try dsimp only
    all_goals (apply cleanupSilero_eq_nil_any; intro p hp; simp at hp; tauto)

set_option maxHeartbeats 1600000 in
theorem transcribeSilero_leak {env : SileroEnv} {e msg : String}
    (h1 : env.ffmpeg = .exited 0 e) (h2 : env.vad.failure = some msg)
    (h3 : env.vad.failWrote = true) :
    (transcribeSilero env).finalFs = [pyReplace wavPath ".wav" "_speech.wav"] := by
  unfold transcribeSilero sileroEngineStage
  rw [h1]
  dsimp only
  rw [if_neg (by norm_num : ¬ (0 : ℤ) ≠ 0), extract_fail wavPath h2]
  try dsimp only
  rw [h3]
  try dsimp only
  repeat' split
  all_goals try dsimp only
  all_goals first
    | decide
    | simp_all

theorem transcribeOriginal_finalFs (env : OrigEnv) : (transcribeOriginal env).finalFs = [] := by
  unfold transcribeOriginal origEngineStage
  dsimp only
  repeat' split
  all_goals try dsimp only
  all_goals (apply cleanupVad_eq_nil; intro p hp; simp at hp; tauto)

/-! ## Helper lemmas: pipeline branch reductions -/

theorem transcribeVad_speech {env : VadEnv} {e : String}
    (h1 : env.ffmpeg = .exited 0 e)
    (h2 : (calculate_audio_energy env.wavSamples).has_speech = true) :
    transcribeVad env =
      vadEngineStage env ([tmpPath] ++ (if env.wavWritten then [wavPath] else [])) := by
  unfold transcribeVad
  rw [h1]
  dsimp only
  rw [if_neg (by norm_num : ¬ (0 : ℤ) ≠ 0), if_pos h2]

theorem transcribeVad_silent {env : VadEnv} {e : String}
    (h1 : env.ffmpeg = .exited 0 e)
    (h2 : (calculate_audio_energy env.wavSamples).has_speech = false) :
    transcribeVad env =
      { resp := { status := "success",
                  language := some env.language,
                  language_probability := some (.str "1.0000"),
                  duration := some (.str "0.00"),
                  full_text := some "",
                  segments := some [],
                  vad_filtered := some true,
                  energy_info := some (calculate_audio_energy env.wavSamples) },
        engineInvoked := false,
        finalFs := cleanupVad ([tmpPath] ++ (if env.wavWritten then [wavPath] else [])) } := by
  unfold transcribeVad
  rw [h1]
  dsimp only
  rw [if_neg (by norm_num : ¬ (0 : ℤ) ≠ 0), if_neg (by rw [h2]; exact Bool.false_ne_true)]

theorem transcribeSilero_speech {env : SileroEnv} {e : String}
    (h1 : env.ffmpeg = .exited 0 e)
    (h2 : (extract_speech_segments wavPath env.vad).info.has_speech = true) :
    transcribeSilero env =
      sileroEngineStage env (extract_speech_segments wavPath env.vad).info
        (extract_speech_segments wavPath env.vad).path
        ([tmpPath] ++ (if env.wavWritten then [wavPath] else []) ++
          (if (extract_speech_segments wavPath env.vad).wrote
            then [pyReplace wavPath ".wav" "_speech.wav"] else [])) := by
  unfold transcribeSilero
  rw [h1]
  dsimp only
  rw [if_neg (by norm_num : ¬ (0 : ℤ) ≠ 0), if_pos h2]

theorem transcribeSilero_silent {env : SileroEnv} {e : String}
    (h1 : env.ffmpeg = .exited 0 e)
    (h2 : (extract_speech_segments wavPath env.vad).info.has_speech = false) :
    transcribeSilero env =
      { resp := { status := "success",
                  language := some env.language,
                  language_probability := some (.num 1),
                  duration := some (.num 0),
                  full_text := some "",
                  segments := some [],
                  vad_info := some (extract_speech_segments wavPath env.vad).info },
        engineInvoked := false,
        finalFs := cleanupSilero (extract_speech_segments wavPath env.vad).path
          ([tmpPath] ++ (if env.wavWritten then [wavPath] else []) ++
            (if (extract_speech_segments wavPath env.vad).wrote
              then [pyReplace wavPath ".wav" "_speech.wav"] else [])) } := by
  unfold transcribeSilero
  rw [h1]
  dsimp only
  rw [if_neg (by norm_num : ¬ (0 : ℤ) ≠ 0), if_neg (by rw [h2]; exact Bool.false_ne_true)]

theorem transcribeOriginal_engine {env : OrigEnv} {e : String}
    (h1 : env.ffmpeg = .exited 0 e) :
    transcribeOriginal env =
      origEngineStage env ([tmpPath] ++ (if env.wavWritten then [wavPath] else [])) := by
  unfold transcribeOriginal
  rw [h1]
  dsimp only
  rw [if_neg (by norm_num : ¬ (0 : ℤ) ≠ 0)]

/-! ## Helper lemmas: hallucination filter -/

theorem keepSeg_stripFw (s : FwSeg) : keepSeg (stripFw s) = keepSeg s := rfl

theorem stripFw_stripFw (s : FwSeg) : stripFw (stripFw s) = stripFw s := by
  unfold stripFw
  simp [pyStrip_idem]

theorem filter_map_strip (l : List FwSeg) :
    (l.map stripFw).filter keepSeg = (l.filter keepSeg).map stripFw := by
  induction l with
  | nil => rfl
  | cons a t ih =>
      simp only [List.map_cons, List.filter_cons, keepSeg_stripFw]
      by_cases hk : keepSeg a = true
      · rw [if_pos hk, if_pos hk, List.map_cons, ih]
      · rw [if_neg hk, if_neg hk, ih]

theorem filter_keep_idem (l : List FwSeg) :
    (l.filter keepSeg).filter keepSeg = l.filter keepSeg := by
  induction l with
  | nil => rfl
  | cons a t ih =>
      rw [List.filter_cons]
      by_cases hk : keepSeg a = true
      · rw [if_pos hk, List.filter_cons, if_pos hk, ih]
      · rw [if_neg hk, ih]

theorem hallucinationFilter_idem (l : List FwSeg) :
    hallucinationFilter (hallucinationFilter l) = hallucinationFilter l := by
  unfold hallucinationFilter
  rw [filter_map_strip, filter_keep_idem, List.map_map]
  have h2 : stripFw ∘ stripFw = stripFw := by
    funext s
    exact stripFw_stripFw s
  rw [h2]

theorem hallucinationFilter_no_speech_bound {l : List FwSeg} {s : FwSeg}
    (hs : s ∈ hallucinationFilter l) :
    ∀ p, s.no_speech_prob = some p → p ≤ 7 / 10 := by
  unfold hallucinationFilter at hs
  obtain ⟨t, ht, rfl⟩ := List.mem_map.mp hs
  have hk := (List.mem_filter.mp ht).2
  intro p hp
  have hp2 : t.no_speech_prob = some p := hp
  unfold keepSeg at hk
  rw [hp2] at hk
  exact of_decide_eq_true hk

/-! ## Helper lemmas: parameter parsing -/

theorem parseFloatParam_error {pf : String → Option ℚ} {v : Option String} {s : String}
    (dflt : ℚ) (h1 : v = some s) (h2 : s ≠ "") (h3 : pf s = none) :
    parseFloatParam pf v dflt = .error ("could not convert string to float: " ++ s) := by
  subst h1
  unfold parseFloatParam
  dsimp only
  rw [if_neg h2, h3]

theorem parseAll_error_of_unparsable (pf : String → Option ℚ) (env : FwEnv)
    (h : (∃ s, env.temperature = some s ∧ s ≠ "" ∧ pf s = none)
       ∨ (∃ s, env.no_speech_threshold = some s ∧ s ≠ "" ∧ pf s = none)
       ∨ (∃ s, env.compression_ratio_threshold = some s ∧ s ≠ "" ∧ pf s = none)
       ∨ (∃ s, env.logprob_threshold = some s ∧ s ≠ "" ∧ pf s = none)) :
    ∃ e, parseAll pf env = .error e := by
  unfold parseAll
  rcases h with ⟨s, h1, h2, h3⟩ | ⟨s, h1, h2, h3⟩ | ⟨s, h1, h2, h3⟩ | ⟨s, h1, h2, h3⟩
  · rw [parseFloatParam_error 0 h1 h2 h3]
    exact ⟨_, rfl⟩
  · cases hq : parseFloatParam pf env.temperature 0 with
    | error e => exact ⟨e, rfl⟩
    | ok q =>
        rw [parseFloatParam_error (3 / 5) h1 h2 h3]
        exact ⟨_, rfl⟩
  · cases hq : parseFloatParam pf env.temperature 0 with
    | error e => exact ⟨e, rfl⟩
    | ok q =>
        cases hq2 : parseFloatParam pf env.no_speech_threshold (3 / 5) with
        | error e => exact ⟨e, rfl⟩
        | ok q2 =>
            rw [parseFloatParam_error (12 / 5) h1 h2 h3]
            exact ⟨_, rfl⟩
  · cases hq : parseFloatParam pf env.temperature 0 with
    | error e => exact ⟨e, rfl⟩
    | ok q =>
        cases hq2 : parseFloatParam pf env.no_speech_threshold (3 / 5) with
        | error e => exact ⟨e, rfl⟩
        | ok q2 =>
            cases hq3 : parseFloatParam pf env.compression_ratio_threshold (12 / 5) with
            | error e => exact ⟨e, rfl⟩
            | ok q3 =>
                rw [parseFloatParam_error (-1) h1 h2 h3]
                exact ⟨_, rfl⟩

theorem transcribeFw_error_of_parse {pf : String → Option ℚ} {env : FwEnv} {e : String}
    (h : parseAll pf env = .error e) :
    (transcribeFw pf env).resp.status = "error" ∧ (transcribeFw pf env).engineInvoked = false := by
  unfold transcribeFw
  rw [h]
  exact ⟨rfl, rfl⟩

/-! ## Helper lemmas: engine stages -/

theorem vadEngineStage_invoked (env : VadEnv) (fs1 : List String) :
    (vadEngineStage env fs1).engineInvoked = true := by
  unfold vadEngineStage
  repeat' split
  all_goals rfl

theorem sileroEngineStage_invoked (env : SileroEnv) (info : VadInfo) (spv : Option String)
    (fs2 : List String) :
    (sileroEngineStage env info spv fs2).engineInvoked = true := by
  unfold sileroEngineStage
  repeat' split
  all_goals rfl

theorem vadEngineStage_timeout {env : VadEnv} (fs1 : List String)
    (h : env.engine = .timeout) :
    (vadEngineStage env fs1).resp =
      { status := "error", error := some "Transcription timeout after 120 seconds" } := by
  unfold vadEngineStage
  rw [h]

theorem sileroEngineStage_timeout {env : SileroEnv} (info : VadInfo) (spv : Option String)
    (fs2 : List String) (h : env.engine = .timeout) :
    (sileroEngineStage env info spv fs2).resp =
      { status := "error", error := some "Transcription timeout after 120 seconds" } := by
  unfold sileroEngineStage
  rw [h]

theorem vadEngineStage_json {env : VadEnv} (fs1 : List String) {e : String}
    (h : env.engine = .exited 0 e) :
    (vadEngineStage env fs1).resp =
      (match env.jsonStatus with
        | .missing =>
            { status := "error", error := some ("No such file or directory: " ++ jsonPath) }
        | .malformed =>
            { status := "error", error := some "Expecting value: line 1 column 1" }
        | .parsed out =>
            match convertSegments (out.transcription.getD []) with
            | .error er => { status := "error", error := some er }
            | .ok (segs, raw) =>
                { status := "success",
                  language := some (out.resultLanguage.getD env.language),
                  language_probability := some (.num 1),
                  duration := some (.num (match segs.getLast? with
                    | some s => s.stop
                    | none => 0)),
                  full_text := some (pyStrip raw),
                  segments := some segs,
                  vad_filtered := some false,
                  energy_info := some (calculate_audio_energy env.wavSamples) }) := by
  unfold vadEngineStage
  rw [h]
  dsimp only
  rw [if_neg (by norm_num : ¬ (0 : ℤ) ≠ 0)]
  cases env.jsonStatus with
  | missing => rfl
  | malformed => rfl
  | parsed out =>
      dsimp only
      cases convertSegments (out.transcription.getD []) with
      | error er => rfl
      | ok pr => obtain ⟨segs, raw⟩ := pr; rfl

theorem sileroEngineStage_json {env : SileroEnv} (info : VadInfo) (spv : Option String)
    (fs2 : List String) {e : String} (h : env.engine = .exited 0 e) :
    (sileroEngineStage env info spv fs2).resp =
      (match env.jsonStatus with
        | .missing =>
            { status := "error", error := some ("No such file or directory: " ++ jsonPath) }
        | .malformed =>
            { status := "error", error := some "Expecting value: line 1 column 1" }
        | .parsed out =>
            match convertSegments (out.transcription.getD []) with
            | .error er => { status := "error", error := some er }
            | .ok (segs, raw) =>
                { status := "success",
                  language := some (out.resultLanguage.getD env.language),
                  language_probability := some (.num 1),
                  duration := some (.num (match segs.getLast? with
                    | some s => s.stop
                    | none => 0)),
                  full_text := some (pyStrip raw),
                  segments := some segs,
                  vad_info := some info }) := by
  unfold sileroEngineStage
  rw [h]
  dsimp only
  rw [if_neg (by norm_num : ¬ (0 : ℤ) ≠ 0)]
  cases env.jsonStatus with
  | missing => rfl
  | malformed => rfl
  | parsed out =>
      dsimp only
      cases convertSegments (out.transcription.getD []) with
      | error er => rfl
      | ok pr => obtain ⟨segs, raw⟩ := pr; rfl

theorem origEngineStage_json {env : OrigEnv} (fs1 : List String) {e : String}
    (h : env.engine = .exited 0 e) :
    (origEngineStage env fs1).resp =
      (match env.jsonStatus with
        | .missing =>
            { status := "error", error := some ("No such file or directory: " ++ jsonPath) }
        | .malformed =>
            { status := "error", error := some "Expecting value: line 1 column 1" }
        | .parsed out =>
            match convertSegments (out.transcription.getD []) with
            | .error er => { status := "error", error := some er }
            | .ok (segs, raw) =>
                { status := "success",
                  language := some (out.resultLanguage.getD env.language),
                  language_probability := some (.num 1),
                  duration := some (.num (match segs.getLast? with
                    | some s => s.stop
                    | none => 0)),
                  full_text := some (pyStrip raw),
                  segments := some segs }) := by
  unfold origEngineStage
  rw [h]
  dsimp only
  rw [if_neg (by norm_num : ¬ (0 : ℤ) ≠ 0)]
  cases env.jsonStatus with
  | missing => rfl
  | malformed => rfl
  | parsed out =>
      dsimp only
      cases convertSegments (out.transcription.getD []) with
      | error er => rfl
      | ok pr => obtain ⟨segs, raw⟩ := pr; rfl

/-! ## Claim theorems -/

/-- C2: for every nonempty canonical 16-bit sample list the energy gate
reports speech exactly when the fraction of samples with absolute value
above 200 is at least 1/100 and the RMS over all samples exceeds 200
(stated as sum of squares exceeding 200 squared times the sample count,
which is equivalent because the square root is monotone and both sides
are nonnegative); and for zero samples it returns has_speech false with
rms, peak and speech_ratio all 0 and no error. -/
theorem C2_energy_gate :
    (∀ samples : List ℤ, samples ≠ [] →
      ((calculate_audio_energy (some samples)).has_speech = true ↔
        ((1 : ℚ) / 100 ≤ (aboveCount samples : ℚ) / (samples.length : ℚ) ∧
         (200 : ℚ) ^ 2 * (samples.length : ℚ) < (sumSquares samples : ℚ)))) ∧
    calculate_audio_energy (some []) =
      { rmsSq := 0, peak := 0, speech_ratio := 0, has_speech := false, error := none } :=
  ⟨energy_has_speech_iff, rfl⟩

/-- C2 witness: a single sample of amplitude 300 satisfies both
conditions and the gate reports speech. -/
theorem C2_energy_gate_witness :
    (calculate_audio_energy (some [300])).has_speech = true :=
  (C2_energy_gate.1 [300] (by decide)).mpr
    (by constructor <;> norm_num [aboveCount, sumSquares, minRmsThreshold, List.filter])

/-- C4: the hallucination filter of whisper-api.py never emits a segment
whose `no_speech_prob` is present and exceeds 0.7, kept segments stay in
their original order (the output is a sublist of the strip-mapped input),
and applying the filter to an already-filtered list returns it
unchanged. -/
theorem C4_hallucination_filter (l : List FwSeg) :
    (∀ s ∈ hallucinationFilter l, ∀ p, s.no_speech_prob = some p → p ≤ 7 / 10) ∧
    List.Sublist (hallucinationFilter l) (l.map stripFw) ∧
    hallucinationFilter (hallucinationFilter l) = hallucinationFilter l :=
  ⟨fun _ hs => hallucinationFilter_no_speech_bound hs,
   List.Sublist.map stripFw (List.filter_sublist l),
   hallucinationFilter_idem l⟩

/-- C4 witness: on the two-segment list the kept segment's probability
0.5 is certified at most 0.7 by the claim theorem. -/
theorem C4_hallucination_filter_witness : (1 : ℚ) / 2 ≤ 7 / 10 :=
  (C4_hallucination_filter [fwSegA, fwSegB]).1 (stripFw fwSegB)
    (by simp [hallucinationFilter, List.filter, keepSeg, fwSegA, fwSegB]; norm_num)
    (1 / 2) rfl

/-- C6 counterexample: on a read failure the energy gate fails open with
has_speech true, but the decision it returns has no error field at all
(the source dict literal on the exception path carries only rms, peak,
speech_ratio and has_speech; the failure is only printed). -/
theorem C6_counterexample :
    (calculate_audio_energy none).has_speech = true ∧
    (calculate_audio_energy none).error = none :=
  ⟨rfl, rfl⟩

/-- C6 amended: for every read or parse error inside the energy VAD gate
the gate returns has_speech true (fail-open) with all metrics zero and no
error field (the failure is only logged), and the request is not
aborted: the pipeline still invokes the engine. -/
theorem C6_amended :
    calculate_audio_energy none =
      { rmsSq := 0, peak := 0, speech_ratio := 0, has_speech := true, error := none } ∧
    (∀ (env : VadEnv) (e : String), env.ffmpeg = .exited 0 e → env.wavSamples = none →
      (transcribeVad env).engineInvoked = true) := by
  refine ⟨rfl, ?_⟩
  intro env e h1 h2
  rw [transcribeVad_speech h1 (by rw [h2]; rfl)]
  exact vadEngineStage_invoked env _

/-- C6 witness: a concrete request whose WAV read fails still reaches
the engine. -/
theorem C6_amended_witness :
    (transcribeVad { wavSamples := none }).engineInvoked = true :=
  C6_amended.2 { wavSamples := none } "" rfl rfl

/-- C9 counterexample: a burst at amplitude 201 (just above the sample
threshold) covering half of the samples has above-threshold fraction at
least 1/100, yet the gate reports no speech because the RMS conjunct
fails (RMS is about 142, not above 200). -/
theorem C9_counterexample :
    ((1 : ℚ) / 100 ≤ (aboveCount toneSamples : ℚ) / (toneSamples.length : ℚ)) ∧
    (calculate_audio_energy (some toneSamples)).has_speech = false := by
  constructor
  · norm_num [aboveCount, toneSamples, minRmsThreshold, List.filter]
  · rw [Bool.eq_false_iff]
    intro hs
    have h := (energy_has_speech_iff toneSamples (by decide)).mp hs
    norm_num [aboveCount, sumSquares, toneSamples, minRmsThreshold, List.filter] at h

/-- C9 amended: audio whose above-threshold samples cover at least 1 %
reports speech provided additionally its RMS exceeds 200 (the second
conjunct of the gate, omitted by the claim). -/
theorem C9_amended (samples : List ℤ) (h : samples ≠ [])
    (hratio : (1 : ℚ) / 100 ≤ (aboveCount samples : ℚ) / (samples.length : ℚ))
    (hrms : (200 : ℚ) ^ 2 * (samples.length : ℚ) < (sumSquares samples : ℚ)) :
    (calculate_audio_energy (some samples)).has_speech = true :=
  (energy_has_speech_iff samples h).mpr ⟨hratio, hrms⟩

/-- C9 witness: a loud two-sample tone is accepted. -/
theorem C9_amended_witness :
    (calculate_audio_energy (some [250, 250])).has_speech = true :=
  C9_amended [250, 250] (by decide)
    (by norm_num [aboveCount, minRmsThreshold, List.filter])
    (by norm_num [sumSquares])

/-! ## Helper lemmas: concrete sample evaluations -/

theorem silentSamples_no_speech :
    (calculate_audio_energy (some silentSamples)).has_speech = false := by
  rw [Bool.eq_false_iff]
  intro hs
  have h := (energy_has_speech_iff silentSamples (by decide)).mp hs
  norm_num [aboveCount, sumSquares, silentSamples, minRmsThreshold, List.filter] at h

theorem loudSamples_has_speech :
    (calculate_audio_energy (some loudSamples)).has_speech = true :=
  (energy_has_speech_iff loudSamples (by decide)).mpr
    (by constructor <;> norm_num [aboveCount, sumSquares, loudSamples, minRmsThreshold, List.filter])

/-- C1 counterexample: for a concrete silent request to the energy-VAD
variant the gate reports no speech and the short-circuit response's
duration field is the string "0.00", not the number 0.0 (the claim's
duration 0.0 fails on this variant; the success path of the same handler
returns numeric durations). -/
theorem C1_counterexample :
    (calculate_audio_energy (some silentSamples)).has_speech = false ∧
    (transcribeVad c1Env).resp.duration = some (JVal.str "0.00") ∧
    JVal.str "0.00" ≠ JVal.num 0 := by
  refine ⟨silentSamples_no_speech, ?_, by simp⟩
  rw [transcribeVad_silent (e := "") rfl silentSamples_no_speech]

/-- C1 amended: when the VAD stage reports has_speech false, in both
subprocess VAD variants the engine is never invoked and the result is a
success with empty full_text and empty segments; the Silero variant
reports duration as the number 0.0, while the energy variant reports the
strings "0.00" and "1.0000" for duration and language probability. -/
theorem C1_amended :
    (∀ (env : VadEnv) (e : String), env.ffmpeg = .exited 0 e →
      (calculate_audio_energy env.wavSamples).has_speech = false →
      ((transcribeVad env).engineInvoked = false ∧
       (transcribeVad env).resp.status = "success" ∧
       (transcribeVad env).resp.full_text = some "" ∧
       (transcribeVad env).resp.segments = some [] ∧
       (transcribeVad env).resp.duration = some (JVal.str "0.00") ∧
       (transcribeVad env).resp.language_probability = some (JVal.str "1.0000"))) ∧
    (∀ (env : SileroEnv) (e : String), env.ffmpeg = .exited 0 e →
      (extract_speech_segments wavPath env.vad).info.has_speech = false →
      ((transcribeSilero env).engineInvoked = false ∧
       (transcribeSilero env).resp.status = "success" ∧
       (transcribeSilero env).resp.full_text = some "" ∧
       (transcribeSilero env).resp.segments = some [] ∧
       (transcribeSilero env).resp.duration = some (JVal.num 0))) := by
  constructor
  · intro env e h1 h2
    rw [transcribeVad_silent h1 h2]
    exact ⟨rfl, rfl, rfl, rfl, rfl, rfl⟩
  · intro env e h1 h2
    rw [transcribeSilero_silent h1 h2]
    exact ⟨rfl, rfl, rfl, rfl, rfl⟩

/-- C1 witness: concrete silent requests to both variants short-circuit
without invoking the engine. -/
theorem C1_amended_witness :
    (transcribeVad c1Env).engineInvoked = false ∧
    (transcribeSilero { vad := { timestamps := [] } }).engineInvoked = false :=
  ⟨(C1_amended.1 c1Env "" rfl silentSamples_no_speech).1,
   (C1_amended.2 { vad := { timestamps := [] } } "" rfl rfl).1⟩

/-- C3 counterexample: a Silero request whose VAD stage raises after the
speech-only WAV was already created (partial write) and whose engine then
times out returns the timeout error envelope, yet the partially written
speech-only WAV survives the `finally` block: fail-open records the
original WAV path as `speech_wav_path`, so the guard
`speech_wav_path != wav_path` never matches the orphan file. -/
theorem C3_counterexample :
    (transcribeSilero c3LeakEnv).resp.error =
      some "Transcription timeout after 120 seconds" ∧
    (transcribeSilero c3LeakEnv).finalFs = [pyReplace wavPath ".wav" "_speech.wav"] ∧
    (transcribeSilero c3LeakEnv).finalFs ≠ [] := by
  refine ⟨?_, transcribeSilero_leak rfl rfl rfl, ?_⟩
  · rw [transcribeSilero_speech (show c3LeakEnv.ffmpeg = RunRes.exited 0 "" from rfl)
          (show (extract_speech_segments wavPath c3LeakEnv.vad).info.has_speech = true from rfl),
        sileroEngineStage_timeout _ _ _ rfl]
  · rw [transcribeSilero_leak (e := "") rfl rfl rfl]
    simp

/-- C3 amended: in both subprocess VAD variants an engine call exceeding
the 120-second timeout yields the timeout error envelope; the upload,
converted WAV and JSON side-file are removed on every exit path of every
request (and every temp file of the energy-VAD and original variants is
always removed); the speech-only WAV is removed as well, except on the
path where the Silero VAD stage raised after the speech-only file was
already created: fail-open then returns the original WAV path, the
`finally` guard never matches the partial file, and exactly that file
survives. -/
theorem C3_amended :
    (∀ (env : VadEnv) (e : String), env.ffmpeg = .exited 0 e →
      (calculate_audio_energy env.wavSamples).has_speech = true →
      env.engine = .timeout →
      ((transcribeVad env).resp.status = "error" ∧
       (transcribeVad env).resp.error = some "Transcription timeout after 120 seconds" ∧
       (transcribeVad env).engineInvoked = true)) ∧
    (∀ env : VadEnv, (transcribeVad env).finalFs = []) ∧
    (∀ (env : SileroEnv) (e : String), env.ffmpeg = .exited 0 e →
      (extract_speech_segments wavPath env.vad).info.has_speech = true →
      env.engine = .timeout →
      ((transcribeSilero env).resp.status = "error" ∧
       (transcribeSilero env).resp.error = some "Transcription timeout after 120 seconds" ∧
       (transcribeSilero env).engineInvoked = true)) ∧
    (∀ env : SileroEnv, env.vad.failure = none → (transcribeSilero env).finalFs = []) ∧
    (∀ env : SileroEnv, env.vad.failWrote = false → (transcribeSilero env).finalFs = []) ∧
    (∀ (env : SileroEnv) (e msg : String), env.ffmpeg = .exited 0 e →
      env.vad.failure = some msg → env.vad.failWrote = true →
      (transcribeSilero env).finalFs = [pyReplace wavPath ".wav" "_speech.wav"]) ∧
    (∀ env : OrigEnv, (transcribeOriginal env).finalFs = []) := by
  refine ⟨?_, transcribeVad_finalFs, ?_, transcribeSilero_finalFs_noFail,
    transcribeSilero_finalFs_noWrote,
    fun env e msg h1 h2 h3 => transcribeSilero_leak h1 h2 h3,
    transcribeOriginal_finalFs⟩
  · intro env e h1 h2 h3
    rw [transcribeVad_speech h1 h2]
    refine ⟨?_, ?_, vadEngineStage_invoked env _⟩
    · rw [vadEngineStage_timeout _ h3]
    · rw [vadEngineStage_timeout _ h3]
  · intro env e h1 h2 h3
    rw [transcribeSilero_speech h1 h2]
    refine ⟨?_, ?_, sileroEngineStage_invoked env _ _ _⟩
    · rw [sileroEngineStage_timeout _ _ _ h3]
    · rw [sileroEngineStage_timeout _ _ _ h3]

/-- C3 witness: concrete timed-out requests in both variants produce the
timeout error envelope, all temp files of concrete clean requests are
removed, and the concrete partial-write request leaves exactly the
orphan speech-only WAV. -/
theorem C3_amended_witness :
    (transcribeVad { wavSamples := some loudSamples, engine := .timeout }).resp.error =
      some "Transcription timeout after 120 seconds" ∧
    (transcribeVad { wavSamples := some loudSamples, engine := .timeout }).finalFs = [] ∧
    (transcribeSilero { vad := { failure := some "boom" }, engine := .timeout }).resp.error =
      some "Transcription timeout after 120 seconds" ∧
    (transcribeSilero { vad := { failure := some "boom" }, engine := .timeout }).finalFs = [] ∧
    (transcribeSilero c3LeakEnv).finalFs = [pyReplace wavPath ".wav" "_speech.wav"] ∧
    (transcribeOriginal { }).finalFs = [] :=
  ⟨(C3_amended.1 { wavSamples := some loudSamples, engine := .timeout }
      "" rfl loudSamples_has_speech rfl).2.1,
   C3_amended.2.1 { wavSamples := some loudSamples, engine := .timeout },
   (C3_amended.2.2.1 { vad := { failure := some "boom" }, engine := .timeout }
      "" rfl rfl rfl).2.1,
   C3_amended.2.2.2.2.1 { vad := { failure := some "boom" }, engine := .timeout } rfl,
   C3_amended.2.2.2.2.2.1 c3LeakEnv "" "No space left on device" rfl rfl rfl,
   C3_amended.2.2.2.2.2.2 { }⟩

/-- C5 counterexample: a request whose engine succeeds but whose parsed
JSON document has no "transcription" key returns a success with empty
segments instead of a parse error (`.get("transcription", [])` silently
defaults), refuting the claim that every missing-key parse failure
yields an error result. -/
theorem C5_counterexample :
    c5Env.jsonStatus = .parsed { transcription := none, resultLanguage := none } ∧
    (transcribeVad c5Env).resp.status = "success" ∧
    (transcribeVad c5Env).resp.error = none := by
  refine ⟨rfl, ?_, ?_⟩
  all_goals
    rw [transcribeVad_speech (e := "") rfl loudSamples_has_speech, vadEngineStage_json _ rfl]
  all_goals rfl

/-- C5 amended: malformed JSON, a missing side-file, or a missing
offsets key on a segment with nonempty trimmed text all yield an error
result; but a missing top-level "transcription" key yields a success
with empty segments, and a segment missing its "text" key is silently
skipped (the counterexample), so only the offset keys are protected. -/
theorem C5_amended :
    (∀ (env : VadEnv) (e e2 : String), env.ffmpeg = .exited 0 e →
      (calculate_audio_energy env.wavSamples).has_speech = true →
      env.engine = .exited 0 e2 →
      ((env.jsonStatus = .malformed → (transcribeVad env).resp.status = "error") ∧
       (env.jsonStatus = .missing → (transcribeVad env).resp.status = "error") ∧
       (∀ out, env.jsonStatus = .parsed out →
         (∃ seg ∈ out.transcription.getD [],
           pyStrip (seg.text.getD "") ≠ "" ∧ seg.offsets = none) →
         ((transcribeVad env).resp.status = "error" ∧
          (transcribeVad env).resp.segments = none)))) ∧
    (∀ (env : SileroEnv) (e e2 : String), env.ffmpeg = .exited 0 e →
      (extract_speech_segments wavPath env.vad).info.has_speech = true →
      env.engine = .exited 0 e2 →
      ((env.jsonStatus = .malformed → (transcribeSilero env).resp.status = "error") ∧
       (env.jsonStatus = .missing → (transcribeSilero env).resp.status = "error") ∧
       (∀ out, env.jsonStatus = .parsed out →
         (∃ seg ∈ out.transcription.getD [],
           pyStrip (seg.text.getD "") ≠ "" ∧ seg.offsets = none) →
         ((transcribeSilero env).resp.status = "error" ∧
          (transcribeSilero env).resp.segments = none)))) ∧
    (∀ (env : OrigEnv) (e e2 : String), env.ffmpeg = .exited 0 e →
      env.engine = .exited 0 e2 →
      ((env.jsonStatus = .malformed → (transcribeOriginal env).resp.status = "error") ∧
       (env.jsonStatus = .missing → (transcribeOriginal env).resp.status = "error") ∧
       (∀ out, env.jsonStatus = .parsed out →
         (∃ seg ∈ out.transcription.getD [],
           pyStrip (seg.text.getD "") ≠ "" ∧ seg.offsets = none) →
         ((transcribeOriginal env).resp.status = "error" ∧
          (transcribeOriginal env).resp.segments = none)))) ∧
    (∀ (l1 l2 : List CppSeg) (seg : CppSeg), seg.text = none →
      convertSegments (l1 ++ seg :: l2) = convertSegments (l1 ++ l2)) := by
  refine ⟨?_, ?_, ?_, fun l1 l2 seg h => convertSegments_skip_textless l2 seg h l1⟩
  · intro env e e2 h1 h2 h3
    rw [transcribeVad_speech h1 h2, vadEngineStage_json _ h3]
    refine ⟨?_, ?_, ?_⟩
    · intro hjs; rw [hjs]
    · intro hjs; rw [hjs]
    · intro out hjs hbad
      rw [hjs]
      dsimp only
      rw [convertSegments_error_of_missing_offsets _ hbad]
      exact ⟨rfl, rfl⟩
  · intro env e e2 h1 h2 h3
    rw [transcribeSilero_speech h1 h2, sileroEngineStage_json _ _ _ h3]
    refine ⟨?_, ?_, ?_⟩
    · intro hjs; rw [hjs]
    · intro hjs; rw [hjs]
    · intro out hjs hbad
      rw [hjs]
      dsimp only
      rw [convertSegments_error_of_missing_offsets _ hbad]
      exact ⟨rfl, rfl⟩
  · intro env e e2 h1 h3
    rw [transcribeOriginal_engine h1, origEngineStage_json _ h3]
    refine ⟨?_, ?_, ?_⟩
    · intro hjs; rw [hjs]
    · intro hjs; rw [hjs]
    · intro out hjs hbad
      rw [hjs]
      dsimp only
      rw [convertSegments_error_of_missing_offsets _ hbad]
      exact ⟨rfl, rfl⟩

/-- C5 witness: a concrete request with a malformed JSON side-file, and
one whose only nonempty segment misses its offsets, both fail. -/
theorem C5_witness :
    (transcribeVad c5MalformedEnv).resp.status = "error" ∧
    (transcribeVad c5OffsetsEnv).resp.status = "error" ∧
    (transcribeSilero c5SileroEnv).resp.status = "error" ∧
    (transcribeOriginal { jsonStatus := .malformed }).resp.status = "error" ∧
    convertSegments [{ text := none, offsets := some (0, 1) }] = convertSegments [] :=
  ⟨(C5_amended.1 c5MalformedEnv "" "" rfl loudSamples_has_speech rfl).1 rfl,
   ((C5_amended.1 c5OffsetsEnv "" "" rfl loudSamples_has_speech rfl).2.2
      { transcription := some [{ text := some "hi", offsets := none }], resultLanguage := none }
      rfl ⟨{ text := some "hi", offsets := none }, by simp, by decide, rfl⟩).1,
   (C5_amended.2.1 c5SileroEnv "" "" rfl rfl rfl).1 rfl,
   (C5_amended.2.2.1 { jsonStatus := .malformed } "" "" rfl rfl).1 rfl,
   C5_amended.2.2.2 [] [] { text := none, offsets := some (0, 1) } rfl⟩

/-- C7: every internal error inside the Silero VAD stage makes it return
the original canonical audio path with has_speech true and the error
message attached, and the pipeline still invokes the engine. -/
theorem C7_neural_fail_open :
    (∀ (p : String) (env : ExtractEnv) (e : String), env.failure = some e →
      extract_speech_segments p env =
        { path := some p, info := { has_speech := true, error := some e },
          wrote := env.failWrote }) ∧
    (∀ (env : SileroEnv) (e msg : String), env.ffmpeg = .exited 0 e →
      env.vad.failure = some msg →
      (transcribeSilero env).engineInvoked = true) := by
  refine ⟨fun p env e h => extract_fail p h, ?_⟩
  intro env e msg h1 h2
  rw [transcribeSilero_speech h1 (by rw [extract_fail wavPath h2])]
  exact sileroEngineStage_invoked env _ _ _

/-- C7 witness: a concrete detector failure is returned fail-open and
the concrete request still reaches the engine. -/
theorem C7_witness :
    extract_speech_segments wavPath { failure := some "boom" } =
      { path := some wavPath, info := { has_speech := true, error := some "boom" },
        wrote := false } ∧
    (transcribeSilero { vad := { failure := some "boom" } }).engineInvoked = true :=
  ⟨C7_neural_fail_open.1 wavPath { failure := some "boom" } "boom" rfl,
   C7_neural_fail_open.2 { vad := { failure := some "boom" } } "" "boom" rfl rfl⟩

/-! ## Helper lemmas: success-response shapes -/

theorem vadEngineStage_success (env : VadEnv) (fs1 : List String) :
    (vadEngineStage env fs1).resp.status = "success" →
    ∃ segs raw, (vadEngineStage env fs1).resp.segments = some segs ∧
      (vadEngineStage env fs1).resp.full_text = some (pyStrip raw) ∧
      ∃ l, convertSegments l = .ok (segs, raw) := by
  unfold vadEngineStage
  repeat' split
  all_goals intro hst
  all_goals first
    | exact ⟨_, _, rfl, rfl, _, by assumption⟩
    | simp at hst

theorem sileroEngineStage_success (env : SileroEnv) (info : VadInfo) (spv : Option String)
    (fs2 : List String) :
    (sileroEngineStage env info spv fs2).resp.status = "success" →
    ∃ segs raw, (sileroEngineStage env info spv fs2).resp.segments = some segs ∧
      (sileroEngineStage env info spv fs2).resp.full_text = some (pyStrip raw) ∧
      ∃ l, convertSegments l = .ok (segs, raw) := by
  unfold sileroEngineStage
  repeat' split
  all_goals intro hst
  all_goals first
    | exact ⟨_, _, rfl, rfl, _, by assumption⟩
    | simp at hst

theorem origEngineStage_success (env : OrigEnv) (fs1 : List String) :
    (origEngineStage env fs1).resp.status = "success" →
    ∃ segs raw, (origEngineStage env fs1).resp.segments = some segs ∧
      (origEngineStage env fs1).resp.full_text = some (pyStrip raw) ∧
      ∃ l, convertSegments l = .ok (segs, raw) := by
  unfold origEngineStage
  repeat' split
  all_goals intro hst
  all_goals first
    | exact ⟨_, _, rfl, rfl, _, by assumption⟩
    | simp at hst

theorem transcribeVad_success (env : VadEnv) :
    (transcribeVad env).resp.status = "success" →
    ∃ segs raw, (transcribeVad env).resp.segments = some segs ∧
      (transcribeVad env).resp.full_text = some (pyStrip raw) ∧
      ((segs = [] ∧ raw = "") ∨ ∃ l, convertSegments l = .ok (segs, raw)) := by
  intro hst
  cases hff : env.ffmpeg with
  | timeout =>
      exfalso
      unfold transcribeVad at hst
      rw [hff] at hst
      simp at hst
  | exited rc stderr =>
      rcases eq_or_ne rc 0 with hrc | hrc
      · subst hrc
        cases hsp : (calculate_audio_energy env.wavSamples).has_speech with
        | false =>
            rw [transcribeVad_silent hff hsp]
            exact ⟨[], "", rfl, rfl, Or.inl ⟨rfl, rfl⟩⟩
        | true =>
            rw [transcribeVad_speech hff hsp] at hst ⊢
            obtain ⟨segs, raw, h1, h2, l, hl⟩ := vadEngineStage_success env _ hst
            exact ⟨segs, raw, h1, h2, Or.inr ⟨l, hl⟩⟩
      · exfalso
        unfold transcribeVad at hst
        rw [hff] at hst
        dsimp only at hst
        rw [if_pos hrc] at hst
        simp at hst

theorem transcribeSilero_success (env : SileroEnv) :
    (transcribeSilero env).resp.status = "success" →
    ∃ segs raw, (transcribeSilero env).resp.segments = some segs ∧
      (transcribeSilero env).resp.full_text = some (pyStrip raw) ∧
      ((segs = [] ∧ raw = "") ∨ ∃ l, convertSegments l = .ok (segs, raw)) := by
  intro hst
  cases hff : env.ffmpeg with
  | timeout =>
      exfalso
      unfold transcribeSilero at hst
      rw [hff] at hst
      simp at hst
  | exited rc stderr =>
      rcases eq_or_ne rc 0 with hrc | hrc
      · subst hrc
        cases hsp : (extract_speech_segments wavPath env.vad).info.has_speech with
        | false =>
            rw [transcribeSilero_silent hff hsp]
            exact ⟨[], "", rfl, rfl, Or.inl ⟨rfl, rfl⟩⟩
        | true =>
            rw [transcribeSilero_speech hff hsp] at hst ⊢
            obtain ⟨segs, raw, h1, h2, l, hl⟩ := sileroEngineStage_success env _ _ _ hst
            exact ⟨segs, raw, h1, h2, Or.inr ⟨l, hl⟩⟩
      · exfalso
        unfold transcribeSilero at hst
        rw [hff] at hst
        dsimp only at hst
        rw [if_pos hrc] at hst
        simp at hst

theorem transcribeOriginal_success (env : OrigEnv) :
    (transcribeOriginal env).resp.status = "success" →
    ∃ segs raw, (transcribeOriginal env).resp.segments = some segs ∧
      (transcribeOriginal env).resp.full_text = some (pyStrip raw) ∧
      ((segs = [] ∧ raw = "") ∨ ∃ l, convertSegments l = .ok (segs, raw)) := by
  intro hst
  cases hff : env.ffmpeg with
  | timeout =>
      exfalso
      unfold transcribeOriginal at hst
      rw [hff] at hst
      simp at hst
  | exited rc stderr =>
      rcases eq_or_ne rc 0 with hrc | hrc
      · subst hrc
        rw [transcribeOriginal_engine hff] at hst ⊢
        obtain ⟨segs, raw, h1, h2, l, hl⟩ := origEngineStage_success env _ hst
        exact ⟨segs, raw, h1, h2, Or.inr ⟨l, hl⟩⟩
      · exfalso
        unfold transcribeOriginal at hst
        rw [hff] at hst
        dsimp only at hst
        rw [if_pos hrc] at hst
        simp at hst

/-- C8 counterexample: a request carrying the unparsable value "banana"
for condition_on_previous_text succeeds, with the parameter silently
parsed as false (the lowercase comparison with "true" never raises),
refuting the claim that every unparsable decoding parameter fails the
request. -/
theorem C8_counterexample :
    (transcribeFw pyFloat0 c8Env).resp.status = "success" ∧
    (transcribeFw pyFloat0 c8Env).callArgs =
      some { temperature := 0, no_speech_threshold := 3 / 5,
             condition_on_previous_text := false,
             compression_ratio_threshold := 12 / 5, logprob_threshold := -1 } :=
  ⟨rfl, rfl⟩

/-- C8 amended: in the in-process variant the four float parameters are
parsed with their documented defaults and an unparsable float value fails
the request before the engine is called; condition_on_previous_text is
never validated: for every nonempty string value the request proceeds to
the engine and the parameter becomes the case-insensitive comparison
with "true" (so anything else silently becomes false, per the
counterexample); and the energy-VAD subprocess variant accepts but
ignores all five decoding parameters. -/
theorem C8_amended :
    (∀ (pf : String → Option ℚ) (env : FwEnv),
      ((∃ s, env.temperature = some s ∧ s ≠ "" ∧ pf s = none)
        ∨ (∃ s, env.no_speech_threshold = some s ∧ s ≠ "" ∧ pf s = none)
        ∨ (∃ s, env.compression_ratio_threshold = some s ∧ s ≠ "" ∧ pf s = none)
        ∨ (∃ s, env.logprob_threshold = some s ∧ s ≠ "" ∧ pf s = none)) →
      ((transcribeFw pf env).resp.status = "error" ∧
       (transcribeFw pf env).engineInvoked = false)) ∧
    (∀ (pf : String → Option ℚ) (env : FwEnv),
      pf "0.0" = some 0 → pf "0.6" = some (3 / 5) → pf "2.4" = some (12 / 5) →
      pf "-1.0" = some (-1) →
      env.temperature = some "0.0" → env.no_speech_threshold = some "0.6" →
      env.condition_on_previous_text = some "false" →
      env.compression_ratio_threshold = some "2.4" → env.logprob_threshold = some "-1.0" →
      (transcribeFw pf env).callArgs =
        some { temperature := 0, no_speech_threshold := 3 / 5,
               condition_on_previous_text := false,
               compression_ratio_threshold := 12 / 5, logprob_threshold := -1 }) ∧
    (∀ (pf : String → Option ℚ) (env : FwEnv) (s : String),
      pf "0.0" = some 0 → pf "0.6" = some (3 / 5) → pf "2.4" = some (12 / 5) →
      pf "-1.0" = some (-1) →
      env.temperature = some "0.0" → env.no_speech_threshold = some "0.6" →
      env.condition_on_previous_text = some s → s ≠ "" →
      env.compression_ratio_threshold = some "2.4" → env.logprob_threshold = some "-1.0" →
      ((transcribeFw pf env).callArgs =
        some { temperature := 0, no_speech_threshold := 3 / 5,
               condition_on_previous_text := (pyLower s == "true"),
               compression_ratio_threshold := 12 / 5, logprob_threshold := -1 } ∧
       (transcribeFw pf env).engineInvoked = true)) ∧
    (∀ (env : VadEnv) (tq ns co cr lp : Option String),
      transcribeVad
          { env with
            temperature := tq
            no_speech_threshold := ns
            condition_on_previous_text := co
            compression_ratio_threshold := cr
            logprob_threshold := lp }
        = transcribeVad env) := by
  refine ⟨?_, ?_, ?_, ?_⟩
  · intro pf env h
    obtain ⟨e, he⟩ := parseAll_error_of_unparsable pf env h
    exact transcribeFw_error_of_parse he
  · intro pf env h0 h06 h24 hm1 ht hn hc hcr hl
    have hargs : parseAll pf env =
        .ok { temperature := 0, no_speech_threshold := 3 / 5,
              condition_on_previous_text := false,
              compression_ratio_threshold := 12 / 5, logprob_threshold := -1 } := by
      unfold parseAll parseFloatParam parseBoolParam
      rw [ht, hn, hc, hcr, hl]
      dsimp only
      rw [if_neg (by decide : ¬ ("0.0" : String) = ""), h0,
          if_neg (by decide : ¬ ("0.6" : String) = ""), h06,
          if_neg (by decide : ¬ ("2.4" : String) = ""), h24,
          if_neg (by decide : ¬ ("-1.0" : String) = ""), hm1]
      rfl
    unfold transcribeFw
    rw [hargs]
    cases env.engine with
    | error e => rfl
    | ok pr => obtain ⟨segs, info⟩ := pr; rfl
  · intro pf env s h0 h06 h24 hm1 ht hn hc hs hcr hl
    have hargs : parseAll pf env =
        .ok { temperature := 0, no_speech_threshold := 3 / 5,
              condition_on_previous_text := (pyLower s == "true"),
              compression_ratio_threshold := 12 / 5, logprob_threshold := -1 } := by
      unfold parseAll parseFloatParam parseBoolParam
      rw [ht, hn, hc, hcr, hl]
      dsimp only
      rw [if_neg (by decide : ¬ ("0.0" : String) = ""), h0,
          if_neg (by decide : ¬ ("0.6" : String) = ""), h06,
          if_neg hs,
          if_neg (by decide : ¬ ("2.4" : String) = ""), h24,
          if_neg (by decide : ¬ ("-1.0" : String) = ""), hm1]
    unfold transcribeFw
    rw [hargs]
    cases env.engine with
    | error e => exact ⟨rfl, rfl⟩
    | ok pr => obtain ⟨segs, info⟩ := pr; exact ⟨rfl, rfl⟩
  · intro env tq ns co cr lp
    rfl

/-- C8 witness: a concrete unparsable temperature fails the request
before the engine runs; the concrete unparsable boolean value "banana"
is accepted with condition parsed as the lowercase comparison (false);
and a concrete request to the energy variant is unchanged under
replacing all five decoding parameters. -/
theorem C8_amended_witness :
    ((transcribeFw pyFloat0 { temperature := some "banana" }).resp.status = "error" ∧
     (transcribeFw pyFloat0 { temperature := some "banana" }).engineInvoked = false) ∧
    ((transcribeFw pyFloat0 c8Env).callArgs =
       some { temperature := 0, no_speech_threshold := 3 / 5,
              condition_on_previous_text := (pyLower "banana" == "true"),
              compression_ratio_threshold := 12 / 5, logprob_threshold := -1 } ∧
     (transcribeFw pyFloat0 c8Env).engineInvoked = true) ∧
    transcribeVad c8IgnoredEnv = transcribeVad c1Env :=
  ⟨C8_amended.1 pyFloat0 { temperature := some "banana" }
     (Or.inl ⟨"banana", rfl, by decide, rfl⟩),
   C8_amended.2.2.1 pyFloat0 c8Env "banana" rfl rfl rfl rfl rfl rfl rfl
     (by decide) rfl rfl,
   C8_amended.2.2.2 c1Env (some "zzz") none (some "x") (some "9") none⟩

/-- C10: in all three subprocess variants, every segment of a success
response has nonempty text equal to its own strip (trimmed, nonempty),
and full_text is the strip of the concatenation of exactly the kept
segments' texts, each followed by one space. -/
theorem C10_segments_nonempty :
    (∀ (env : VadEnv) (segs : List Seg) (ft : String),
      (transcribeVad env).resp.status = "success" →
      (transcribeVad env).resp.segments = some segs →
      (transcribeVad env).resp.full_text = some ft →
      ((∀ s ∈ segs, s.text ≠ "" ∧ pyStrip s.text = s.text) ∧
       ft = pyStrip (joinAll (segs.map (fun s => s.text ++ " "))))) ∧
    (∀ (env : SileroEnv) (segs : List Seg) (ft : String),
      (transcribeSilero env).resp.status = "success" →
      (transcribeSilero env).resp.segments = some segs →
      (transcribeSilero env).resp.full_text = some ft →
      ((∀ s ∈ segs, s.text ≠ "" ∧ pyStrip s.text = s.text) ∧
       ft = pyStrip (joinAll (segs.map (fun s => s.text ++ " "))))) ∧
    (∀ (env : OrigEnv) (segs : List Seg) (ft : String),
      (transcribeOriginal env).resp.status = "success" →
      (transcribeOriginal env).resp.segments = some segs →
      (transcribeOriginal env).resp.full_text = some ft →
      ((∀ s ∈ segs, s.text ≠ "" ∧ pyStrip s.text = s.text) ∧
       ft = pyStrip (joinAll (segs.map (fun s => s.text ++ " "))))) := by
  refine ⟨?_, ?_, ?_⟩
  · intro env segs ft hst hsegs hft
    obtain ⟨segs', raw, h1, h2, h3⟩ := transcribeVad_success env hst
    rw [h1] at hsegs
    rw [h2] at hft
    obtain rfl : segs' = segs := Option.some.inj hsegs
    obtain rfl : pyStrip raw = ft := Option.some.inj hft
    rcases h3 with ⟨rfl, rfl⟩ | ⟨l, hconv⟩
    · exact ⟨by simp, rfl⟩
    · obtain ⟨hmem, hraw⟩ := convertSegments_ok l _ _ hconv
      exact ⟨hmem, by rw [hraw]⟩
  · intro env segs ft hst hsegs hft
    obtain ⟨segs', raw, h1, h2, h3⟩ := transcribeSilero_success env hst
    rw [h1] at hsegs
    rw [h2] at hft
    obtain rfl : segs' = segs := Option.some.inj hsegs
    obtain rfl : pyStrip raw = ft := Option.some.inj hft
    rcases h3 with ⟨rfl, rfl⟩ | ⟨l, hconv⟩
    · exact ⟨by simp, rfl⟩
    · obtain ⟨hmem, hraw⟩ := convertSegments_ok l _ _ hconv
      exact ⟨hmem, by rw [hraw]⟩
  · intro env segs ft hst hsegs hft
    obtain ⟨segs', raw, h1, h2, h3⟩ := transcribeOriginal_success env hst
    rw [h1] at hsegs
    rw [h2] at hft
    obtain rfl : segs' = segs := Option.some.inj hsegs
    obtain rfl : pyStrip raw = ft := Option.some.inj hft
    rcases h3 with ⟨rfl, rfl⟩ | ⟨l, hconv⟩
    · exact ⟨by simp, rfl⟩
    · obtain ⟨hmem, hraw⟩ := convertSegments_ok l _ _ hconv
      exact ⟨hmem, by rw [hraw]⟩

/-- C10 witness: on a concrete request whose engine emits one segment
with padded text, the claim theorem certifies the kept segment text is
nonempty and already stripped. -/
theorem C10_witness : ("hello" : String) ≠ "" ∧ pyStrip "hello" = "hello" := by
  have h := (C10_segments_nonempty.1 c10Env
      [{ start := ((0 : ℤ) : ℚ) / 1000, stop := ((1500 : ℤ) : ℚ) / 1000, text := "hello" }]
      (pyStrip ("hello" ++ " " ++ ""))
      (by rw [transcribeVad_speech (e := "") rfl loudSamples_has_speech,
              vadEngineStage_json _ rfl]; rfl)
      (by rw [transcribeVad_speech (e := "") rfl loudSamples_has_speech,
              vadEngineStage_json _ rfl]; rfl)
      (by rw [transcribeVad_speech (e := "") rfl loudSamples_has_speech,
              vadEngineStage_json _ rfl]; rfl))
  exact h.1 { start := ((0 : ℤ) : ℚ) / 1000, stop := ((1500 : ℤ) : ℚ) / 1000, text := "hello" }
    (by simp)
